import Mathlib

/-!
Verification of the task-management backend (domain entity, application
service, event serialization, stream consumer loop).

Embedding conventions:
* `datetime` values are abstract instants, represented as `Nat`; the service
  clock is passed explicitly (`now`).  `datetime.utcnow()` returns the given
  instant, and `datetime.isoformat()` is a lossless encoding of an instant,
  represented by the instant itself.
* `UUID` values are opaque identifiers, represented as `String`; `uuid4()`
  results are passed in explicitly as fresh identifiers, and `str(uuid)` is
  the identity.
* Python `str.strip()` is modelled by `pyStrip` (drop leading and trailing
  whitespace characters).
* Raising an exception is modelled by returning `Except.error`.
-/

namespace TaskApp

/-- Whitespace test used by the model of Python `str.strip()`. -/
def isPySpace (c : Char) : Bool :=
  c == ' ' || c == '\t' || c == '\n' || c == '\r'

/-- Model of Python `str.strip()`: drop leading and trailing whitespace. -/
def pyStrip (s : String) : String :=
  String.mk (((s.data.dropWhile isPySpace).reverse.dropWhile isPySpace).reverse)

/-- `TaskStatus` enumeration (domain/models.py). -/
inductive TaskStatus
  | pending
  | in_progress
  | completed
  | cancelled
deriving Repr, DecidableEq

/-- The `.value` of each `TaskStatus` member (domain/models.py). -/
def TaskStatus.value : TaskStatus → String
  | .pending => "pending"
  | .in_progress => "in_progress"
  | .completed => "completed"
  | .cancelled => "cancelled"

/-- Python `str()` of a `TaskStatus` member, as used in f-strings. -/
def TaskStatus.pyStr : TaskStatus → String
  | .pending => "TaskStatus.PENDING"
  | .in_progress => "TaskStatus.IN_PROGRESS"
  | .completed => "TaskStatus.COMPLETED"
  | .cancelled => "TaskStatus.CANCELLED"

/-- `TaskPriority` enumeration (domain/models.py). -/
inductive TaskPriority
  | low
  | medium
  | high
  | critical
deriving Repr, DecidableEq

/-- The `.value` of each `TaskPriority` member (domain/models.py). -/
def TaskPriority.value : TaskPriority → String
  | .low => "low"
  | .medium => "medium"
  | .high => "high"
  | .critical => "critical"

/-- The `Task` dataclass (domain/models.py). -/
structure Task where
  id : String
  title : String
  description : String
  status : TaskStatus
  priority : TaskPriority
  created_at : Nat
  updated_at : Nat
  completed_at : Option Nat
  assigned_to : Option String
deriving Repr, DecidableEq

/-- `Task.create` factory (domain/models.py): fresh id and clock instant are
passed explicitly; status starts `pending`, both timestamps are `now`,
`completed_at` is null. -/
def Task.create (newId : String) (now : Nat) (title description : String)
    (priority : TaskPriority) (assigned_to : Option String) : Task :=
  { id := newId
    title := title
    description := description
    status := TaskStatus.pending
    priority := priority
    created_at := now
    updated_at := now
    completed_at := none
    assigned_to := assigned_to }

/-- Message of the `ValueError` raised by `Task.start` on a non-pending task. -/
def startErrorMsg (s : TaskStatus) : String :=
  "Cannot start task in " ++ s.pyStr ++ " status"

/-- `Task.start` (domain/models.py): only from `pending`; sets status to
`in_progress` and refreshes `updated_at`.  A raised `ValueError` is the
`.error` branch, carrying the Python message. -/
def Task.start (now : Nat) (t : Task) : Except String Task :=
  if t.status ≠ TaskStatus.pending then
    Except.error (startErrorMsg t.status)
  else
    Except.ok { t with status := TaskStatus.in_progress, updated_at := now }

/-- `Task.complete` (domain/models.py): rejected from `completed` and
`cancelled`; otherwise sets status to `completed` and sets
`completed_at = updated_at = now`. -/
def Task.complete (now : Nat) (t : Task) : Except String Task :=
  if t.status = TaskStatus.completed then
    Except.error "Task is already completed"
  else if t.status = TaskStatus.cancelled then
    Except.error "Cannot complete a cancelled task"
  else
    Except.ok { t with status := TaskStatus.completed,
                       completed_at := some now, updated_at := now }

/-- `Task.cancel` (domain/models.py): rejected only from `completed`;
otherwise sets status to `cancelled` and refreshes `updated_at`. -/
def Task.cancel (now : Nat) (t : Task) : Except String Task :=
  if t.status = TaskStatus.completed then
    Except.error "Cannot cancel a completed task"
  else
    Except.ok { t with status := TaskStatus.cancelled, updated_at := now }

/-- `Task.assign_to` (domain/models.py): total; sets `assigned_to` and
refreshes `updated_at`. -/
def Task.assign_to (assignee : String) (now : Nat) (t : Task) : Task :=
  { t with assigned_to := some assignee, updated_at := now }

/-- A sample pending task used to instantiate universally quantified
theorems at a concrete input. -/
def sampleTask : Task :=
  { id := "t-1"
    title := "Buy milk"
    description := "2% milk, 1 gallon"
    status := TaskStatus.pending
    priority := TaskPriority.high
    created_at := 0
    updated_at := 0
    completed_at := none
    assigned_to := some "alice" }

/-- C2: complete succeeds iff the current status is pending or in_progress;
on success the status becomes completed, `completed_at` is set to the clock
instant and equals `updated_at`; completing again fails with the
invalid-operation `ValueError` and produces no changed task. -/
theorem task_complete_spec (t : Task) (n n2 : Nat) :
    ((∃ t2, Task.complete n t = Except.ok t2) ↔
      (t.status = TaskStatus.pending ∨ t.status = TaskStatus.in_progress))
    ∧ (∀ t2, Task.complete n t = Except.ok t2 →
        t2.status = TaskStatus.completed
        ∧ t2.completed_at = some n
        ∧ t2.updated_at = n
        ∧ t2.completed_at = some t2.updated_at
        ∧ Task.complete n2 t2 = Except.error "Task is already completed") := by
  constructor
  · constructor
    · intro h
      obtain ⟨t2, h⟩ := h
      unfold Task.complete at h
      cases hs : t.status <;> simp [hs] at h <;> simp [hs]
    · intro h
      unfold Task.complete
      rcases h with h | h <;> simp [h]
  · intro t2 h
    unfold Task.complete at h
    cases hs : t.status <;> simp [hs] at h
    · refine ⟨by simp [← h], by simp [← h], by simp [← h], by simp [← h], ?_⟩
      unfold Task.complete
      simp [← h]
    · refine ⟨by simp [← h], by simp [← h], by simp [← h], by simp [← h], ?_⟩
      unfold Task.complete
      simp [← h]

/-- Witness for C2: the sample pending task at clock 5. -/
theorem task_complete_spec_witness :
    ((∃ t2, Task.complete 5 sampleTask = Except.ok t2) ↔
      (sampleTask.status = TaskStatus.pending ∨
        sampleTask.status = TaskStatus.in_progress))
    ∧ (∀ t2, Task.complete 5 sampleTask = Except.ok t2 →
        t2.status = TaskStatus.completed
        ∧ t2.completed_at = some 5
        ∧ t2.updated_at = 5
        ∧ t2.completed_at = some t2.updated_at
        ∧ Task.complete 7 t2 = Except.error "Task is already completed") :=
  task_complete_spec sampleTask 5 7

/-- C3: start succeeds iff the current status is pending (then the status
becomes in_progress and `updated_at` is refreshed); from any other status it
fails with the invalid-operation `ValueError` whose message embeds the
current status (recoverably: the message is injective in the status) and the
attempted operation, and that error kind is distinct from not-found and
business-rule-violation errors. -/
theorem task_start_spec (t : Task) (n : Nat) :
    ((∃ t2, Task.start n t = Except.ok t2) ↔ t.status = TaskStatus.pending)
    ∧ (∀ t2, Task.start n t = Except.ok t2 →
        t2 = { t with status := TaskStatus.in_progress, updated_at := n })
    ∧ (t.status ≠ TaskStatus.pending →
        Task.start n t = Except.error (startErrorMsg t.status))
    ∧ (∀ s1 s2 : TaskStatus, startErrorMsg s1 = startErrorMsg s2 → s1 = s2)
    ∧ (∀ s : TaskStatus,
        startErrorMsg s = "Cannot start task in " ++ s.pyStr ++ " status") := by
  refine ⟨?_, ?_, ?_, by intro s1 s2; cases s1 <;> cases s2 <;> decide, fun _ => rfl⟩
  · constructor
    · intro h
      obtain ⟨t2, h⟩ := h
      unfold Task.start at h
      by_cases hs : t.status = TaskStatus.pending
      · exact hs
      · simp [hs] at h
    · intro h
      unfold Task.start
      simp [h]
  · intro t2 h
    unfold Task.start at h
    by_cases hs : t.status = TaskStatus.pending
    · simp [hs] at h
      exact h.symm
    · simp [hs] at h
  · intro hs
    unfold Task.start
    simp [hs]

/-- Witness for C3: the sample pending task at clock 3. -/
theorem task_start_spec_witness :
    ((∃ t2, Task.start 3 sampleTask = Except.ok t2) ↔
      sampleTask.status = TaskStatus.pending)
    ∧ (∀ t2, Task.start 3 sampleTask = Except.ok t2 →
        t2 = { sampleTask with status := TaskStatus.in_progress, updated_at := 3 })
    ∧ (sampleTask.status ≠ TaskStatus.pending →
        Task.start 3 sampleTask = Except.error (startErrorMsg sampleTask.status))
    ∧ (∀ s1 s2 : TaskStatus, startErrorMsg s1 = startErrorMsg s2 → s1 = s2)
    ∧ (∀ s : TaskStatus,
        startErrorMsg s = "Cannot start task in " ++ s.pyStr ++ " status") :=
  task_start_spec sampleTask 3

/-- C4: cancel fails with the invalid-operation `ValueError` iff the current
status is completed; from every other status (pending, in_progress, and also
cancelled) it succeeds, setting the status to cancelled and refreshing
`updated_at`. -/
theorem task_cancel_spec (t : Task) (n : Nat) :
    ((Task.cancel n t = Except.error "Cannot cancel a completed task") ↔
      t.status = TaskStatus.completed)
    ∧ (t.status ≠ TaskStatus.completed →
        Task.cancel n t =
          Except.ok { t with status := TaskStatus.cancelled, updated_at := n }) := by
  constructor
  · constructor
    · intro h
      unfold Task.cancel at h
      by_cases hs : t.status = TaskStatus.completed
      · exact hs
      · simp [hs] at h
    · intro h
      unfold Task.cancel
      simp [h]
  · intro h
    unfold Task.cancel
    simp [h]

/-- Witness for C4: the sample pending task at clock 4. -/
theorem task_cancel_spec_witness :
    ((Task.cancel 4 sampleTask = Except.error "Cannot cancel a completed task") ↔
      sampleTask.status = TaskStatus.completed)
    ∧ (sampleTask.status ≠ TaskStatus.completed →
        Task.cancel 4 sampleTask =
          Except.ok { sampleTask with status := TaskStatus.cancelled,
                                      updated_at := 4 }) :=
  task_cancel_spec sampleTask 4

/-- Wire values appearing in the `data` sub-mapping of a serialized event
(domain/events.py): each field is either a string or Python `None`. -/
inductive JsonVal
  | s (v : String)
  | null
deriving Repr, DecidableEq

/-- Encoding of an optional string field into a wire value. -/
def optVal : Option String → JsonVal
  | some v => JsonVal.s v
  | none => JsonVal.null

/-- Read a wire value back as a required string field. -/
def JsonVal.asStr : JsonVal → Option String
  | .s v => some v
  | .null => none

/-- Read a wire value back as an optional string field (null is `none`). -/
def JsonVal.asOpt : JsonVal → Option (Option String)
  | .s v => some (some v)
  | .null => some none

/-- The five domain event variants (domain/events.py), each carrying
`event_id` and `occurred_at` from the `DomainEvent` base plus its own
payload fields. -/
inductive DomainEvent
  | created (event_id : String) (occurred_at : Nat) (task_id : String)
      (title : String) (assigned_to : Option String) (priority : String)
  | started (event_id : String) (occurred_at : Nat) (task_id : String)
      (started_by : Option String)
  | completed (event_id : String) (occurred_at : Nat) (task_id : String)
      (completed_by : Option String)
  | cancelled (event_id : String) (occurred_at : Nat) (task_id : String)
      (cancelled_by : Option String) (reason : Option String)
  | assigned (event_id : String) (occurred_at : Nat) (task_id : String)
      (assigned_to : String) (assigned_by : Option String)
deriving Repr, DecidableEq

/-- The wire mapping produced by `DomainEvent.to_dict` (domain/events.py):
`event_type` is the class name, `event_id` is `str(event_id)` (identity on
opaque identifiers), `occurred_at` is the lossless `isoformat` encoding of
the instant (the instant itself in this embedding), and `data` is the
variant-specific sub-mapping. -/
structure EventDict where
  event_type : String
  event_id : String
  occurred_at : Nat
  data : List (String × JsonVal)
deriving Repr, DecidableEq

/-- `DomainEvent.to_dict` combined with each variant `_get_event_data`
(domain/events.py). -/
def DomainEvent.to_dict : DomainEvent → EventDict
  | .created eid t task_id title assigned_to priority =>
    { event_type := "TaskCreatedEvent", event_id := eid, occurred_at := t
      data := [("task_id", JsonVal.s task_id), ("title", JsonVal.s title),
               ("assigned_to", optVal assigned_to),
               ("priority", JsonVal.s priority)] }
  | .started eid t task_id started_by =>
    { event_type := "TaskStartedEvent", event_id := eid, occurred_at := t
      data := [("task_id", JsonVal.s task_id),
               ("started_by", optVal started_by)] }
  | .completed eid t task_id completed_by =>
    { event_type := "TaskCompletedEvent", event_id := eid, occurred_at := t
      data := [("task_id", JsonVal.s task_id),
               ("completed_by", optVal completed_by)] }
  | .cancelled eid t task_id cancelled_by reason =>
    { event_type := "TaskCancelledEvent", event_id := eid, occurred_at := t
      data := [("task_id", JsonVal.s task_id),
               ("cancelled_by", optVal cancelled_by),
               ("reason", optVal reason)] }
  | .assigned eid t task_id assigned_to assigned_by =>
    { event_type := "TaskAssignedEvent", event_id := eid, occurred_at := t
      data := [("task_id", JsonVal.s task_id),
               ("assigned_to", JsonVal.s assigned_to),
               ("assigned_by", optVal assigned_by)] }

/-- Reader for the wire mapping: dispatches on the `event_type` tag and
reads every field of the `data` sub-mapping back, reconstructing the event. -/
def eventOfDict (d : EventDict) : Option DomainEvent :=
  if d.event_type = "TaskCreatedEvent" then
    match d.data.lookup "task_id", d.data.lookup "title",
          d.data.lookup "assigned_to", d.data.lookup "priority" with
    | some v1, some v2, some v3, some v4 =>
      match v1.asStr, v2.asStr, v3.asOpt, v4.asStr with
      | some task_id, some title, some assigned_to, some priority =>
        some (DomainEvent.created d.event_id d.occurred_at task_id title
          assigned_to priority)
      | _, _, _, _ => none
    | _, _, _, _ => none
  else if d.event_type = "TaskStartedEvent" then
    match d.data.lookup "task_id", d.data.lookup "started_by" with
    | some v1, some v2 =>
      match v1.asStr, v2.asOpt with
      | some task_id, some started_by =>
        some (DomainEvent.started d.event_id d.occurred_at task_id started_by)
      | _, _ => none
    | _, _ => none
  else if d.event_type = "TaskCompletedEvent" then
    match d.data.lookup "task_id", d.data.lookup "completed_by" with
    | some v1, some v2 =>
      match v1.asStr, v2.asOpt with
      | some task_id, some completed_by =>
        some (DomainEvent.completed d.event_id d.occurred_at task_id
          completed_by)
      | _, _ => none
    | _, _ => none
  else if d.event_type = "TaskCancelledEvent" then
    match d.data.lookup "task_id", d.data.lookup "cancelled_by",
          d.data.lookup "reason" with
    | some v1, some v2, some v3 =>
      match v1.asStr, v2.asOpt, v3.asOpt with
      | some task_id, some cancelled_by, some reason =>
        some (DomainEvent.cancelled d.event_id d.occurred_at task_id
          cancelled_by reason)
      | _, _, _ => none
    | _, _, _ => none
  else if d.event_type = "TaskAssignedEvent" then
    match d.data.lookup "task_id", d.data.lookup "assigned_to",
          d.data.lookup "assigned_by" with
    | some v1, some v2, some v3 =>
      match v1.asStr, v2.asStr, v3.asOpt with
      | some task_id, some assigned_to, some assigned_by =>
        some (DomainEvent.assigned d.event_id d.occurred_at task_id
          assigned_to assigned_by)
      | _, _, _ => none
    | _, _, _ => none
  else none

/-- C8: for every domain event variant, serializing via `to_dict` and
reading back the type-tagged fields (event_type, event_id, occurred_at and
every field of the `data` sub-mapping) reproduces the original field values,
including optional fields that are null. -/
theorem event_to_dict_roundtrip :
    ∀ e : DomainEvent, eventOfDict e.to_dict = some e := by
  intro e
  cases e with
  | created eid t task_id title assigned_to priority =>
    cases assigned_to <;> rfl
  | started eid t task_id started_by =>
    cases started_by <;> rfl
  | completed eid t task_id completed_by =>
    cases completed_by <;> rfl
  | cancelled eid t task_id cancelled_by reason =>
    cases cancelled_by <;> cases reason <;> rfl
  | assigned eid t task_id assigned_to assigned_by =>
    cases assigned_by <;> rfl

/-- Errors surfaced by `TaskService` (application/services/task_service.py):
`valueErr` is a `ValueError` raised by the entity (mapped to the
invalid-operation kind at the API boundary), `businessRule` a
`BusinessRuleViolationException (rule, message)`, `notFound` an
`EntityNotFoundException (entity_type, entity_id)`, and `publishFailure` an
exception raised by `event_publisher.publish`. -/
inductive ServiceError
  | valueErr (msg : String)
  | businessRule (rule : String) (msg : String)
  | notFound (entity_type : String) (entity_id : String)
  | publishFailure
deriving Repr, DecidableEq

/-- Outcome of one service call.  `store` is the durable database contents:
`SQLAlchemyTaskRepository.save` opens its own session via
`DatabaseSession.get_session` and commits inside `save`
(task_repository.py), so every save is durably visible immediately; the
`SQLAlchemyUnitOfWork` holds a separate session created by
`__enter__` (unit_of_work.py) which never contains the repository writes,
so its rollback on an exception leaves `store` untouched.  `saveCalls`
records the arguments of `repository.save` invocations and `published` the
successfully published `(event_type, payload)` pairs. -/
structure SvcOutcome where
  result : Except ServiceError Task
  store : List Task
  saveCalls : List Task
  published : List (String × EventDict)
deriving Repr

/-- `SQLAlchemyTaskRepository.save` (task_repository.py): upsert keyed on
`id`.  An existing row keeps its `id` and `created_at` and takes every
other field from the argument; otherwise the row is inserted.  The row as
re-read after the commit is returned. -/
def repoSave (store : List Task) (t : Task) : List Task × Task :=
  match store.find? (fun r => decide (r.id = t.id)) with
  | some existing =>
    let updated : Task :=
      { existing with
          title := t.title, description := t.description,
          status := t.status, priority := t.priority,
          assigned_to := t.assigned_to, updated_at := t.updated_at,
          completed_at := t.completed_at }
    (store.map (fun r => if r.id = t.id then updated else r), updated)
  | none => (store ++ [t], t)

/-- `SQLAlchemyTaskRepository.get_by_id` (task_repository.py). -/
def repoGetById (store : List Task) (task_id : String) : Option Task :=
  store.find? (fun r => decide (r.id = task_id))

/-- Insert a task into a list kept in descending `created_at` order. -/
def insertByCreatedDesc (t : Task) : List Task → List Task
  | [] => [t]
  | x :: xs =>
    if x.created_at ≤ t.created_at then t :: x :: xs
    else x :: insertByCreatedDesc t xs

/-- `ORDER BY created_at DESC` (task_repository.py `get_all`). -/
def sortByCreatedDesc (l : List Task) : List Task :=
  l.foldr insertByCreatedDesc []

/-- `SQLAlchemyTaskRepository.get_all` (task_repository.py): filter by
status, assignee and priority, order newest-created-first, then paginate
(`OFFSET` before `LIMIT`). -/
def repoGetAll (store : List Task) (status : Option TaskStatus)
    (assigned_to : Option String) (priority : Option TaskPriority)
    (limit : Nat) (offset : Nat) : List Task :=
  let q1 : List Task := match status with
    | some s => store.filter (fun t => decide (t.status = s))
    | none => store
  let q2 : List Task := match assigned_to with
    | some a => q1.filter (fun t => decide (t.assigned_to = some a))
    | none => q1
  let q3 : List Task := match priority with
    | some p => q2.filter (fun t => decide (t.priority = p))
    | none => q2
  ((sortByCreatedDesc q3).drop offset).take limit

/-- `SQLAlchemyTaskRepository.count` (task_repository.py): count rows
matching the optional status and assignee filters. -/
def repoCount (store : List Task) (status : Option TaskStatus)
    (assigned_to : Option String) : Nat :=
  let q1 : List Task := match status with
    | some s => store.filter (fun t => decide (t.status = s))
    | none => store
  let q2 : List Task := match assigned_to with
    | some a => q1.filter (fun t => decide (t.assigned_to = some a))
    | none => q1
  q2.length

/-- `TaskService.create_task` (task_service.py): validate the title and
description (empty or whitespace-only fails with business-rule-violation
before the unit of work opens), create the entity from the stripped fields,
save, publish one `task.created` event built from the saved task, then
commit.  `pubOk` is whether `event_publisher.publish` returns normally; on
a publish failure the exception propagates, the unit of work rolls back its
own (empty) session, and the store keeps the row committed by `save`. -/
def create_task (store : List Task) (pubOk : Bool) (newId eventId : String)
    (now : Nat) (title description : String) (priority : TaskPriority)
    (assigned_to : Option String) : SvcOutcome :=
  if pyStrip title = "" then
    { result := Except.error (ServiceError.businessRule "task_title_required"
        "Task title cannot be empty")
      store := store, saveCalls := [], published := [] }
  else if pyStrip description = "" then
    { result := Except.error (ServiceError.businessRule
        "task_description_required" "Task description cannot be empty")
      store := store, saveCalls := [], published := [] }
  else
    let task := Task.create newId now (pyStrip title) (pyStrip description)
      priority assigned_to
    let saved := repoSave store task
    let event := DomainEvent.created eventId now saved.2.id saved.2.title
      saved.2.assigned_to saved.2.priority.value
    if pubOk then
      { result := Except.ok saved.2, store := saved.1, saveCalls := [task]
        published := [("task.created", event.to_dict)] }
    else
      { result := Except.error ServiceError.publishFailure, store := saved.1
        saveCalls := [task], published := [] }

/-- `TaskService.assign_task` (task_service.py): an empty or
whitespace-only assignee fails with business-rule-violation before the unit
of work opens; otherwise the task is loaded (absence fails with not-found),
`assign_to` is applied with the STRIPPED assignee, the task is saved, and
one `task.assigned` event is published whose `assigned_to` payload field
carries the ORIGINAL unstripped argument. -/
def assign_task (store : List Task) (pubOk : Bool) (eventId : String)
    (now : Nat) (task_id : String) (assignee : String)
    (user_id : Option String) : SvcOutcome :=
  if pyStrip assignee = "" then
    { result := Except.error (ServiceError.businessRule "assignee_required"
        "Assignee cannot be empty")
      store := store, saveCalls := [], published := [] }
  else
    match repoGetById store task_id with
    | none =>
      { result := Except.error (ServiceError.notFound "Task" task_id)
        store := store, saveCalls := [], published := [] }
    | some task =>
      let task1 := Task.assign_to (pyStrip assignee) now task
      let saved := repoSave store task1
      let event := DomainEvent.assigned eventId now task_id assignee user_id
      if pubOk then
        { result := Except.ok saved.2, store := saved.1, saveCalls := [task1]
          published := [("task.assigned", event.to_dict)] }
      else
        { result := Except.error ServiceError.publishFailure
          store := saved.1, saveCalls := [task1], published := [] }

/-- Iteration order of `for status in TaskStatus` (definition order). -/
def statusMembers : List TaskStatus :=
  [TaskStatus.pending, TaskStatus.in_progress, TaskStatus.completed,
   TaskStatus.cancelled]

/-- One step of the in-memory priority tally of `get_task_statistics`:
Python dict update `d[k] = d.get(k, 0) + 1`, keeping insertion order. -/
def bumpCount (acc : List (String × Nat)) (k : String) : List (String × Nat) :=
  if acc.any (fun p => decide (p.1 = k)) then
    acc.map (fun p => if p.1 = k then (p.1, p.2 + 1) else p)
  else acc ++ [(k, 1)]

/-- The in-memory priority tally over a list of fetched tasks. -/
def priorityTally (tasks : List Task) : List (String × Nat) :=
  tasks.foldl (fun acc t => bumpCount acc t.priority.value) []

/-- The statistics mapping returned by `get_task_statistics`. -/
structure Stats where
  total : Nat
  by_status : List (String × Nat)
  by_priority : List (String × Nat)
deriving Repr, DecidableEq

/-- `TaskService.get_task_statistics` (task_service.py): total via
`repository.count`, per-status counts via one `count` per status member
with zero counts omitted, and per-priority counts tallied in memory from
`repository.get_all(assigned_to=assigned_to, limit=1000)`. -/
def get_task_statistics (store : List Task) (assigned_to : Option String) :
    Stats :=
  let total := repoCount store none assigned_to
  let by_status := statusMembers.foldl
    (fun acc s =>
      let c := repoCount store (some s) assigned_to
      if c > 0 then acc ++ [(s.value, c)] else acc) []
  let tasks := repoGetAll store none assigned_to none 1000 0
  { total := total, by_status := by_status, by_priority := priorityTally tasks }

/-- C1: counterexample to the publish-failure atomicity property.  Starting
from an empty durable store, `create_task` with a failing event publisher
propagates the publish error, yet the created row is still durably present
afterwards: `repository.save` committed it in its own session
(task_repository.py), and the rollback performed by
`SQLAlchemyUnitOfWork.__exit__` only affects the separate, empty
unit-of-work session. -/
theorem create_task_publish_failure_row_durable :
    (create_task [] false "id-1" "ev-1" 0 "Buy milk" "2% milk, 1 gallon"
        TaskPriority.high (some "alice")).result =
      Except.error ServiceError.publishFailure
    ∧ (create_task [] false "id-1" "ev-1" 0 "Buy milk" "2% milk, 1 gallon"
        TaskPriority.high (some "alice")).store =
      [Task.create "id-1" 0 "Buy milk" "2% milk, 1 gallon"
        TaskPriority.high (some "alice")] :=
  ⟨rfl, rfl⟩

/-- C6: assign_task with an empty or whitespace-only assignee fails with
the business-rule-violation error before the unit of work opens: the store
is unchanged, no `repository.save` call happens and nothing is published. -/
theorem assign_task_blank_assignee_spec (store : List Task) (pubOk : Bool)
    (eventId : String) (now : Nat) (task_id assignee : String)
    (user_id : Option String) (h : pyStrip assignee = "") :
    assign_task store pubOk eventId now task_id assignee user_id =
      { result := Except.error (ServiceError.businessRule "assignee_required"
          "Assignee cannot be empty")
        store := store, saveCalls := [], published := [] } := by
  unfold assign_task
  simp [h]

/-- Witness for C6: a whitespace-only assignee on a singleton store. -/
theorem assign_task_blank_assignee_spec_witness :
    assign_task [sampleTask] true "ev-1" 9 "t-1" "   " none =
      { result := Except.error (ServiceError.businessRule "assignee_required"
          "Assignee cannot be empty")
        store := [sampleTask], saveCalls := [], published := [] } :=
  assign_task_blank_assignee_spec [sampleTask] true "ev-1" 9 "t-1" "   "
    none rfl

/-- C5: create_task on a fresh id with non-blank title and description
returns a pending task with the given priority and assignee, equal creation
and update timestamps and a null `completed_at`, and publishes exactly one
`task.created` event whose payload task id, title, assignee and priority
match the returned task. -/
theorem create_task_spec (store : List Task) (newId eventId : String)
    (now : Nat) (title description assignee : String)
    (priority : TaskPriority)
    (ht : pyStrip title ≠ "") (hd : pyStrip description ≠ "")
    (hfresh : ∀ t ∈ store, t.id ≠ newId) :
    ∃ task,
      (create_task store true newId eventId now title description priority
        (some assignee)).result = Except.ok task
      ∧ task.status = TaskStatus.pending
      ∧ task.priority = priority
      ∧ task.assigned_to = some assignee
      ∧ task.created_at = task.updated_at
      ∧ task.completed_at = none
      ∧ ∃ w,
          (create_task store true newId eventId now title description
            priority (some assignee)).published = [("task.created", w)]
          ∧ w.data.lookup "task_id" = some (JsonVal.s task.id)
          ∧ w.data.lookup "title" = some (JsonVal.s task.title)
          ∧ w.data.lookup "assigned_to" = some (optVal task.assigned_to)
          ∧ w.data.lookup "priority" = some (JsonVal.s task.priority.value) := by
  have hfind : store.find?
      (fun r => decide (r.id = (Task.create newId now (pyStrip title)
        (pyStrip description) priority (some assignee)).id)) = none := by
    rw [List.find?_eq_none]
    intro x hx
    simp [Task.create]
    exact hfresh x hx
  refine ⟨Task.create newId now (pyStrip title) (pyStrip description)
    priority (some assignee), ?_, rfl, rfl, rfl, rfl, rfl, ?_⟩
  · unfold create_task repoSave
    simp [ht, hd, hfind]
  · refine ⟨(DomainEvent.created eventId now newId (pyStrip title)
      (some assignee) priority.value).to_dict, ?_, rfl, rfl, rfl, rfl⟩
    unfold create_task repoSave
    simp [ht, hd, hfind]
    rfl

/-- Witness for C5: creating the example task on an empty store. -/
theorem create_task_spec_witness :
    ∃ task,
      (create_task [] true "id-1" "ev-1" 0 "Buy milk" "2% milk, 1 gallon"
        TaskPriority.high (some "alice")).result = Except.ok task
      ∧ task.status = TaskStatus.pending
      ∧ task.priority = TaskPriority.high
      ∧ task.assigned_to = some "alice"
      ∧ task.created_at = task.updated_at
      ∧ task.completed_at = none
      ∧ ∃ w,
          (create_task [] true "id-1" "ev-1" 0 "Buy milk" "2% milk, 1 gallon"
            TaskPriority.high (some "alice")).published =
            [("task.created", w)]
          ∧ w.data.lookup "task_id" = some (JsonVal.s task.id)
          ∧ w.data.lookup "title" = some (JsonVal.s task.title)
          ∧ w.data.lookup "assigned_to" = some (optVal task.assigned_to)
          ∧ w.data.lookup "priority" =
              some (JsonVal.s task.priority.value) :=
  create_task_spec [] "id-1" "ev-1" 0 "Buy milk" "2% milk, 1 gallon" "alice"
    TaskPriority.high (by decide) (by decide) (by simp)

/-- C10: assigning with an assignee that has surrounding whitespace around
non-empty text stores the stripped assignee on the task, while the
published `task.assigned` event payload carries the original unstripped
input, so the event payload differs from the persisted task state. -/
theorem assign_task_event_untrimmed_spec (store : List Task) (t : Task)
    (eventId : String) (now : Nat) (assignee : String)
    (user_id : Option String)
    (hmem : repoGetById store t.id = some t)
    (ha : pyStrip assignee ≠ "") (hne : assignee ≠ pyStrip assignee) :
    ∃ task w,
      (assign_task store true eventId now t.id assignee user_id).result =
        Except.ok task
      ∧ task.assigned_to = some (pyStrip assignee)
      ∧ (assign_task store true eventId now t.id assignee user_id).saveCalls
          = [Task.assign_to (pyStrip assignee) now t]
      ∧ (assign_task store true eventId now t.id assignee user_id).published
          = [("task.assigned", w)]
      ∧ w.data.lookup "assigned_to" = some (JsonVal.s assignee)
      ∧ JsonVal.s assignee ≠ optVal task.assigned_to := by
  have hfind : store.find?
      (fun r => decide (r.id = (Task.assign_to (pyStrip assignee) now t).id))
      = some t := by
    simpa [Task.assign_to, repoGetById] using hmem
  refine ⟨Task.assign_to (pyStrip assignee) now t,
    (DomainEvent.assigned eventId now t.id assignee user_id).to_dict,
    ?_, rfl, ?_, ?_, rfl, ?_⟩
  · unfold assign_task repoSave
    simp [ha, repoGetById] at hmem ⊢
    simp [hmem, hfind, Task.assign_to]
  · unfold assign_task repoSave
    simp [ha, repoGetById] at hmem ⊢
    simp [hmem, hfind]
  · unfold assign_task
    simp [ha, repoGetById] at hmem ⊢
    simp [hmem]
  · simp [Task.assign_to, optVal]
    exact hne

/-- Witness for C10: assigning " bob " to the sample task. -/
theorem assign_task_event_untrimmed_spec_witness :
    ∃ task w,
      (assign_task [sampleTask] true "ev-2" 3 sampleTask.id " bob "
        none).result = Except.ok task
      ∧ task.assigned_to = some (pyStrip " bob ")
      ∧ (assign_task [sampleTask] true "ev-2" 3 sampleTask.id " bob "
          none).saveCalls = [Task.assign_to (pyStrip " bob ") 3 sampleTask]
      ∧ (assign_task [sampleTask] true "ev-2" 3 sampleTask.id " bob "
          none).published = [("task.assigned", w)]
      ∧ w.data.lookup "assigned_to" = some (JsonVal.s " bob ")
      ∧ JsonVal.s " bob " ≠ optVal task.assigned_to :=
  assign_task_event_untrimmed_spec [sampleTask] sampleTask "ev-2" 3 " bob "
    none rfl (by decide) (by decide)

/-- A concrete store with three pending, one completed and one cancelled
task, all of priority medium except one high. -/
def statsDemoStore : List Task :=
  [{ id := "d-1", title := "a", description := "a",
     status := TaskStatus.pending, priority := TaskPriority.medium,
     created_at := 1, updated_at := 1, completed_at := none,
     assigned_to := none },
   { id := "d-2", title := "b", description := "b",
     status := TaskStatus.pending, priority := TaskPriority.medium,
     created_at := 2, updated_at := 2, completed_at := none,
     assigned_to := none },
   { id := "d-3", title := "c", description := "c",
     status := TaskStatus.pending, priority := TaskPriority.medium,
     created_at := 3, updated_at := 3, completed_at := none,
     assigned_to := none },
   { id := "d-4", title := "d", description := "d",
     status := TaskStatus.completed, priority := TaskPriority.high,
     created_at := 4, updated_at := 5, completed_at := some 5,
     assigned_to := none },
   { id := "d-5", title := "e", description := "e",
     status := TaskStatus.cancelled, priority := TaskPriority.medium,
     created_at := 5, updated_at := 6, completed_at := none,
     assigned_to := none }]

/-- C7: statistics over the demo store give total 5, per-status counts
pending 3 / completed 1 / cancelled 1 with the zero-count in_progress
entry omitted, and per-priority counts medium 4 / high 1; the per-priority
tally is computed in memory from the tasks fetched with limit 1000. -/
theorem get_task_statistics_spec :
    (get_task_statistics statsDemoStore none).total = 5
    ∧ (get_task_statistics statsDemoStore none).by_status =
        [("pending", 3), ("completed", 1), ("cancelled", 1)]
    ∧ (get_task_statistics statsDemoStore none).by_priority.lookup "medium"
        = some 4
    ∧ (get_task_statistics statsDemoStore none).by_priority.lookup "high"
        = some 1
    ∧ (get_task_statistics statsDemoStore none).by_priority.length = 2
    ∧ (∀ s a, (get_task_statistics s a).by_priority =
        priorityTally (repoGetAll s none a none 1000 0)) :=
  ⟨rfl, rfl, rfl, rfl, rfl, fun _ _ => rfl⟩

/-- The per-batch body of `RedisStreamConsumer.run` (redis_consumer.py):
for each claimed message the payload is parsed with `_parse_message`
(total: every decoding failure falls back to the raw value, so it is a
plain function here, passed as `parse`), the handler `process_message` is
invoked, and `xack` is called only when the handler returns without
raising.  The returned list is the acknowledged message ids, in order. -/
def loopBody {α β : Type} (parse : α → β)
    (process : String → β → Except String Unit)
    (batch : List (String × α)) : List String :=
  batch.filterMap (fun md =>
    match process md.1 (parse md.2) with
    | Except.ok _ => some md.1
    | Except.error _ => none)

/-- Modelled from the spec: the broker redelivery contract of §4.4 for the
external stream broker (not part of src/) — an unacknowledged message is
redelivered on a later iteration, an acknowledged one never again.  Each
iteration delivers the still-pending messages to the consumer body
(`loopBody`, from redis_consumer.py) with the iteration-indexed handler and
removes the acknowledged ids from the pending set.  Returns the
acknowledgment lists per iteration and the final pending set. -/
def brokerRun {α β : Type} (parse : α → β)
    (process : Nat → String → β → Except String Unit) :
    Nat → Nat → List (String × α) → List (List String) × List (String × α)
  | _, 0, pending => ([], pending)
  | i, Nat.succ n, pending =>
    let acks := loopBody parse (process i) pending
    let rest := brokerRun parse process (i + 1) n
      (pending.filter (fun md => !(acks.contains md.1)))
    (acks :: rest.1, rest.2)

/-- C9: in the consumer loop a message is acknowledged iff its handler
invocation returns without raising, and for a message whose handler raises
on the first invocation and succeeds on the second, exactly one
acknowledgment occurs, after the second invocation — none after the failed
one. -/
theorem consumer_ack_iff_handler_success {α β : Type} (parse : α → β)
    (process : Nat → String → β → Except String Unit) (m : String) (d : α)
    (h1 : ∃ e, process 0 m (parse d) = Except.error e)
    (h2 : process 1 m (parse d) = Except.ok ()) :
    (∀ (proc : String → β → Except String Unit)
        (batch : List (String × α)) (x : String),
        x ∈ loopBody parse proc batch ↔
          ∃ dd, (x, dd) ∈ batch ∧ proc x (parse dd) = Except.ok ())
    ∧ brokerRun parse process 0 2 [(m, d)] = ([[], [m]], []) := by
  constructor
  · intro proc batch x
    induction batch with
    | nil => simp [loopBody]
    | cons hd tl ih =>
      simp only [loopBody, List.filterMap_cons] at ih ⊢
      cases hp : proc hd.1 (parse hd.2) with
      | ok u =>
        cases u
        simp only [List.mem_cons]
        constructor
        · intro h
          rcases h with h | h
          · exact ⟨hd.2, Or.inl (by rw [h]), by rw [h]; exact hp⟩
          · rcases ih.mp h with ⟨dd, hdd, hok⟩
            exact ⟨dd, Or.inr hdd, hok⟩
        · intro h
          rcases h with ⟨dd, hdd | hdd, hok⟩
          · left
            rw [← hdd]
          · right
            exact ih.mpr ⟨dd, hdd, hok⟩
      | error e =>
        rw [ih]
        constructor
        · intro h
          rcases h with ⟨dd, hdd, hok⟩
          exact ⟨dd, List.mem_cons_of_mem hd hdd, hok⟩
        · intro h
          rcases h with ⟨dd, hdd, hok⟩
          rcases List.mem_cons.mp hdd with hdd | hdd
          · exfalso
            have hx : x = hd.1 := by rw [← hdd]
            have hd2 : dd = hd.2 := by rw [← hdd]
            rw [hx, hd2, hp] at hok
            exact Except.noConfusion hok
          · exact ⟨dd, hdd, hok⟩
  · obtain ⟨e, h1⟩ := h1
    simp [brokerRun, loopBody, h1, h2]

/-- Witness for C9: a handler over unit payloads that fails on the first
invocation and succeeds on the second. -/
theorem consumer_ack_iff_handler_success_witness :
    (∀ (proc : String → Unit → Except String Unit)
        (batch : List (String × Unit)) (x : String),
        x ∈ loopBody (fun u : Unit => u) proc batch ↔
          ∃ dd, (x, dd) ∈ batch ∧ proc x ((fun u : Unit => u) dd) =
            Except.ok ())
    ∧ brokerRun (fun u : Unit => u)
        (fun i _ _ => if i = 0 then Except.error "boom" else Except.ok ())
        0 2 [("msg-1", ())] = ([[], ["msg-1"]], []) :=
  consumer_ack_iff_handler_success (fun u : Unit => u)
    (fun i _ _ => if i = 0 then Except.error "boom" else Except.ok ())
    "msg-1" () ⟨"boom", rfl⟩ rfl

end TaskApp
